import Mathlib

/-!
Verification of the RAG pipeline core (backend/rag_pipeline.py and the
knowledge-base / chat endpoints of backend/main.py), shallowly embedded
over `List Char` texts.  External collaborators (the embedding model, the
ChromaDB nearest-neighbour index, the OpenAI client, Google Docs fetching)
are modelled as explicit parameters; everything the repository's own code
computes is translated here.  `Float` distances are modelled as rationals:
the code only compares them against the literal threshold 1.0.
-/

set_option maxRecDepth 20000

/-- Coercion from a Lean string literal to the `List Char` texts used
throughout the development. -/
def s2l (s : String) : List Char :=
  s.data

/-- Python `str` whitespace for the ASCII range, as used by `str.strip()`
and `str.split()`. -/
def isPySpace (c : Char) : Bool :=
  c = ' ' || c = '\t' || c = '\n' || c = '\r' || c = '\x0b' || c = '\x0c'

/-- Python `text.strip()`: drop leading and trailing whitespace. -/
def pyStrip (l : List Char) : List Char :=
  ((l.dropWhile isPySpace).reverse.dropWhile isPySpace).reverse

/-- Python `text.split()` (no argument): words separated by whitespace runs,
empty pieces discarded. -/
def pySplitWs (l : List Char) : List (List Char) :=
  let step := fun (acc : List (List Char) × List Char) c =>
    if isPySpace c then
      (if acc.2.isEmpty then acc else (acc.1 ++ [acc.2.reverse], []))
    else (acc.1, c :: acc.2)
  let r := l.foldl step ([], [])
  if r.2.isEmpty then r.1 else r.1 ++ [r.2.reverse]

/-- Python `str.lower()` on the ASCII range. -/
def pyLower (l : List Char) : List Char :=
  l.map Char.toLower

/-- Python `text.rfind(ch)` on a whole string: the highest index holding
`ch`, or `-1` when absent. -/
def pyRfindChar (ch : Char) (l : List Char) : Int :=
  match l.reverse.findIdx? (fun c => c = ch) with
  | some j => (l.length : Int) - 1 - (j : Int)
  | none => -1

/-- Python index normalisation for slice bounds: negative indices count from
the end, results are clamped into `[0, len]`. -/
def pyIndex (len : Nat) (i : Int) : Nat :=
  if i < 0 then ((len : Int) + i).toNat else min i.toNat len

/-- Python `text[s:e]` with full slice semantics over `Int` bounds. -/
def pySliceI (l : List Char) (s e : Int) : List Char :=
  (l.take (pyIndex l.length e)).drop (pyIndex l.length s)

/-- Scanner for `pyRfind2`: highest position `i` with `s ≤ i`, `i + 2 ≤ e`
and the two characters at `i` equal to `a, b`.  `i` counts from `pos`. -/
def findLastPair (a b : Char) (s e : Nat) : List Char → Nat → Option Nat → Option Nat
  | c1 :: c2 :: rest, i, best =>
    findLastPair a b s e (c2 :: rest) (i + 1)
      (if c1 = a && c2 = b && s ≤ i && i + 2 ≤ e then some i else best)
  | _, _, best => best

/-- Python `text.rfind(sub, start, end)` for a two-character `sub`: the
occurrence must lie inside `text[start:end]`, bounds take slice semantics. -/
def pyRfind2 (a b : Char) (l : List Char) (s e : Int) : Option Nat :=
  findLastPair a b (pyIndex l.length s) (pyIndex l.length e) l 0 none

/-- Python `content.split('. ')`: split at each non-overlapping occurrence,
left to right, keeping empty pieces.  `acc` holds the current piece
reversed. -/
def splitDotSpaceGo : List Char → List Char → List (List Char)
  | [], acc => [acc.reverse]
  | '.' :: ' ' :: rest, acc => acc.reverse :: splitDotSpaceGo rest []
  | c :: rest, acc => splitDotSpaceGo rest (c :: acc)

/-- Python `content.split('. ')`. -/
def splitDotSpace (l : List Char) : List (List Char) :=
  splitDotSpaceGo l []

/-- First-occurrence deduplication, the element set of a Python `set(...)`. -/
def dedup (ws : List (List Char)) : List (List Char) :=
  ws.foldl (fun acc w => if w ∈ acc then acc else acc ++ [w]) []

/-- Lexicographic comparison of words by character code, Python's `<` on
strings. -/
def wordLt : List Char → List Char → Bool
  | [], [] => false
  | [], _ :: _ => true
  | _ :: _, [] => false
  | a :: as, b :: bs => if a.val < b.val then true else if b.val < a.val then false else wordLt as bs

/-- Insertion into a sorted word list. -/
def insertWord (w : List Char) : List (List Char) → List (List Char)
  | [] => [w]
  | x :: xs => if wordLt x w then x :: insertWord w xs else w :: x :: xs

/-- Python `tuple(sorted(word_set))`: sorted deduplicated words. -/
def sortWords (ws : List (List Char)) : List (List Char) :=
  (dedup ws).foldl (fun acc w => insertWord w acc) []

/-- Python `s.startswith(tuple_of_prefixes)`. -/
def startsWithAny (l : List Char) (ps : List (List Char)) : Bool :=
  ps.any (fun p => p.isPrefixOf l)

/-! ## The chunker: `RAGPipeline._chunk_text`

The source walks a cursor `start` through the text; each window is
`text[start:start+chunk_size]`, cut back to the last sentence terminator
(`'. '`, else `'.\n'`) found by `rfind` inside the window when the window
does not already reach end-of-text.  The next cursor is `end - overlap`
(which in Python may go negative, hence `Int`).  The loop is modelled with
explicit fuel because it does not terminate on all inputs. -/

/-- The adjusted window end for the window starting at `start`
(`end` in the source). -/
def chunkEnd (csz : Nat) (text : List Char) (start : Int) : Int :=
  let len : Int := (text.length : Int)
  let end0 : Int := start + (csz : Int)
  if end0 < len then
    match pyRfind2 '.' ' ' text start end0 with
    | some p => (p : Int) + 2
    | none =>
      match pyRfind2 '.' '\n' text start end0 with
      | some p => (p : Int) + 2
      | none => end0
  else end0

/-- The chunk produced by the window at `start`: `text[start:end].strip()`. -/
def chunkPiece (csz : Nat) (text : List Char) (start : Int) : List Char :=
  pyStrip (pySliceI text start (chunkEnd csz text start))

/-- The next cursor: `end - overlap if end < len(text) else end`. -/
def chunkNext (csz ov : Nat) (text : List Char) (start : Int) : Int :=
  let e := chunkEnd csz text start
  if e < (text.length : Int) then e - (ov : Int) else e

/-- The `while start < len(text)` loop of `_chunk_text`, with fuel.
`none` means the fuel ran out with the cursor still inside the text. -/
def chunkLoop (csz ov : Nat) (text : List Char) : Nat → Int → Option (List (List Char))
  | 0, start => if start < (text.length : Int) then none else some []
  | fuel + 1, start =>
    if start < (text.length : Int) then
      match chunkLoop csz ov text fuel (chunkNext csz ov text start) with
      | none => none
      | some rest =>
        some (if (chunkPiece csz text start).isEmpty then rest else chunkPiece csz text start :: rest)
    else some []

/-- `RAGPipeline._chunk_text(text, chunk_size, overlap)`: texts no longer
than `chunk_size` are returned whole (untrimmed); longer texts go through
the window loop. -/
def chunkText (fuel : Nat) (text : List Char) (csz ov : Nat) : Option (List (List Char)) :=
  if text.length ≤ csz then some [text] else chunkLoop csz ov text fuel 0

/-- `_chunk_text` at its default parameters `chunk_size=2000, overlap=200`. -/
def chunkTextD (fuel : Nat) (text : List Char) : Option (List (List Char)) :=
  chunkText fuel text 2000 200

/-! ## The vector store and ingestion

ChromaDB's collection is modelled as a list of entries, each with its
chroma id, stored chunk text and metadata.  Embedding vectors play no role
in any claim about the repository's own code (they are produced and
consumed by the external model and index), so entries do not carry them.
`collection.add` appends entries; `collection.get(where=...)` +
`collection.delete(ids=...)` is composed exactly as `remove_document`
does. -/

/-- The metadata dict attached to each stored chunk by `add_document`. -/
structure Meta where
  documentId : List Char
  documentName : List Char
  chunkIndex : Nat
deriving DecidableEq, Repr

/-- One stored chunk: chroma id, text and metadata. -/
structure Entry where
  eid : List Char
  text : List Char
  meta : Meta
deriving DecidableEq, Repr

/-- The modelled ChromaDB collection. -/
abbrev Store := List Entry

/-- The entries of a given document, in store order. -/
def entriesDoc (docId : List Char) (store : Store) : Store :=
  store.filter (fun e => decide (e.meta.documentId = docId))

/-- The number of stored chunks of a given document. -/
def countDoc (docId : List Char) (store : Store) : Nat :=
  (entriesDoc docId store).length

/-- The entries `add_document` uploads for the valid chunks: ids
`f"{document_id}_{i}"`, texts the chunks themselves, metadata carrying
document id, name and chunk index. -/
def mkEntries (docId docName : List Char) (chunks : List (List Char)) : Store :=
  chunks.enum.map (fun p => ⟨docId ++ '_' :: Nat.toDigits 10 p.1, p.2, ⟨docId, docName, p.1⟩⟩)

/-- `RAGPipeline.remove_document`: fetch the ids of the entries whose
metadata matches the document id, then delete those ids. -/
def removeDocument (store : Store) (docId : List Char) : Store :=
  let ids := (store.filter (fun e => decide (e.meta.documentId = docId))).map (fun e => e.eid)
  store.filter (fun e => !(decide (e.eid ∈ ids)))

/-- The chunk list `add_document` computes before filtering: a single
untrimmed chunk for content shorter than 3000 characters (empty list if
the content is whitespace-only), else `_chunk_text` at default
parameters. -/
def chunksOf (fuel : Nat) (content : List Char) : Option (List (List Char)) :=
  if content.length < 3000 then
    some (if (pyStrip content).isEmpty then [] else [content])
  else chunkTextD fuel content

/-- `RAGPipeline.add_document`: chunk, return untouched on no content or
no valid chunks, else append the entries of the non-blank chunks.
`none` only when the chunking loop's fuel runs out. -/
def addDocument (fuel : Nat) (store : Store) (docId docName content : List Char) : Option Store :=
  match chunksOf fuel content with
  | none => none
  | some chunks =>
    if chunks.isEmpty then some store
    else
      let valid := chunks.filter (fun c => !(pyStrip c).isEmpty)
      if valid.isEmpty then some store
      else some (store ++ mkEntries docId docName valid)

/-- The per-document ingestion path of the `/api/knowledge-base/add`
endpoint: `remove_document(doc_id)` then `add_document(doc_id, name,
content)`. -/
def ingestDocument (fuel : Nat) (store : Store) (docId docName content : List Char) : Option Store :=
  addDocument fuel (removeDocument store docId) docId docName content

/-! ## Search and the chat threshold policy -/

/-- The single caller-visible embedding failure: no backend configured. -/
inductive EmbErr where
  | unavailable
deriving DecidableEq, Repr

/-- One retrieved result dict as built by `search`: chunk text, metadata
(`{}` is modelled as `none`) and cosine distance. -/
structure SearchCtx where
  content : List Char
  metadata : Option Meta
  distance : ℚ
deriving DecidableEq, Repr

/-- `RAGPipeline.search`: empty store short-circuits to `([], [])` before
the query embedding is computed; otherwise the query embedding is produced
(or `EmbeddingUnavailable` propagates) and the index is asked for
`min(top_k, count())` neighbours.  The index itself is external and passed
as `qres`. -/
def search (store : Store) (embedQ : Except EmbErr (List ℚ))
    (qres : List ℚ → Nat → List SearchCtx) (topK : Nat) :
    Except EmbErr (List SearchCtx × List ℚ) :=
  if store.length = 0 then Except.ok ([], [])
  else
    match embedQ with
    | Except.error e => Except.error e
    | Except.ok v =>
      let rs := qres v (min topK store.length)
      Except.ok (rs, rs.map (fun r => r.distance))

/-- The threshold classification of the `/api/chat` endpoint: a zipped
result is relevant when its distance is `< 1.0`; if results exist but none
is relevant, `found_in_documents` is forced to `True` and the top 3
results become the contexts. -/
def chatSelect (docs : List SearchCtx) (scores : List ℚ) : Bool × List SearchCtx :=
  let pairs := docs.zip scores
  let found := pairs.any (fun p => decide (p.2 < 1))
  let relevant := (pairs.filter (fun p => decide (p.2 < 1))).map Prod.fst
  if !docs.isEmpty && !found then (true, docs.take 3) else (found, relevant)

/-! ## The deterministic fallback synthesizer
`RAGPipeline._generate_simple_response` and
`RAGPipeline._create_natural_response`. -/

/-- The document name a context is grouped under:
`metadata.get('document_name', 'Document')`. -/
def docNameOf (ctx : SearchCtx) : List Char :=
  match ctx.metadata with
  | some m => m.documentName
  | none => s2l "Document"

/-- Whitespace normalisation and 500-character truncation applied to each
non-blank context (already stripped) before grouping. -/
def cleanContent (stripped : List Char) : List Char :=
  let c := List.intercalate (s2l " ") (pySplitWs stripped)
  if 500 < c.length then
    let lastPeriod := pyRfindChar '.' (c.take 500)
    if 300 < lastPeriod then c.take (lastPeriod.toNat + 1) ++ s2l "..."
    else c.take 500 ++ s2l "..."
  else c

/-- Append a value under a key of the insertion-ordered dict
`doc_content_map`. -/
def mapAppend (k : List Char) (v : List Char) : List (List Char × List (List Char)) → List (List Char × List (List Char))
  | [] => [(k, [v])]
  | (k', vs) :: rest => if k' = k then (k', vs ++ [v]) :: rest else (k', vs) :: mapAppend k v rest

/-- The grouping loop over `retrieved_contexts[:5]`. -/
def buildDocMap (ctxs : List SearchCtx) : List (List Char × List (List Char)) :=
  (ctxs.take 5).foldl
    (fun m ctx =>
      let content := pyStrip ctx.content
      if content.isEmpty then m else mapAppend (docNameOf ctx) (cleanContent content) m)
    []

/-- One step of the key-sentence loop of `_create_natural_response`:
state is `(key_sentences, seen_words)`. -/
def naturalStep (qwords : List (List Char)) (acc : List (List Char) × List (List (List Char)))
    (sentence : List Char) : List (List Char) × List (List (List Char)) :=
  let swords := dedup (pySplitWs (pyLower sentence))
  let relevance := swords.countP (fun w => decide (w ∈ qwords))
  if 0 < relevance || acc.1.length < 5 then
    let tup := sortWords swords
    if !(decide (tup ∈ acc.2)) || acc.1.length < 3 then
      (acc.1 ++ [pyStrip sentence], acc.2 ++ [tup])
    else acc
  else acc

/-- `RAGPipeline._create_natural_response(query, content)`. -/
def createNaturalResponse (query content : List Char) : List Char :=
  let sentences := splitDotSpace content
  let qwords := dedup (pySplitWs (pyLower query))
  let keyS := ((sentences.take 15).foldl (naturalStep qwords) ([], [])).1
  let keyS := if keyS.isEmpty then ((sentences.take 5).map pyStrip).filter (fun s => !s.isEmpty) else keyS
  let resp : List Char :=
    if keyS.length = 1 then keyS.headD []
    else if keyS.length ≤ 3 then List.intercalate (s2l ". ") keyS
    else List.intercalate (s2l ". ") (keyS.take 3) ++ s2l ". " ++ keyS.getLastD []
  let resp : List Char :=
    match resp.getLast? with
    | some c => if c = '.' || c = '!' || c = '?' then resp else resp ++ ['.']
    | none => resp ++ ['.']
  if 800 < resp.length then
    let cutoff := pyRfindChar '.' (resp.take 800)
    if 500 < cutoff then resp.take (cutoff.toNat + 1) else resp.take 750 ++ s2l "..."
  else resp

/-- The `found_in_documents and retrieved_contexts` branch of
`_generate_simple_response`. -/
def mainBranch (query : List Char) (retrieved : List SearchCtx) : List Char :=
  let m := buildDocMap retrieved
  let allContent := m.map (fun p => List.intercalate (s2l " ") (p.2.take 3))
  let combined := List.intercalate (s2l " ") allContent
  let names := m.map (fun p => p.1)
  if startsWithAny (pyLower query) [s2l "what", s2l "tell me", s2l "explain", s2l "describe"] then
    (if m.length = 1 then s2l "Based on " ++ names.headD [] ++ s2l ", "
     else s2l "Based on your documents (" ++ List.intercalate (s2l ", ") names ++ s2l "), ")
      ++ createNaturalResponse query combined
  else
    (if m.length = 1 then s2l "Based on " ++ names.headD [] ++ s2l ", here's what I found:\n\n"
     else s2l "Based on your documents, here's what I found:\n\n")
      ++ (if 1000 < combined.length then
            let cutoff := pyRfindChar '.' (combined.take 1000)
            if 700 < cutoff then
              combined.take (cutoff.toNat + 1) ++ s2l " For more details, please refer to the full documents."
            else combined.take 900 ++ s2l "... For more details, please refer to the full documents."
          else combined)

/-- `RAGPipeline._generate_simple_response(query, retrieved_contexts,
found_in_documents)`. -/
def generateSimpleResponse (query : List Char) (retrieved : List SearchCtx) (found : Bool) : List Char :=
  if found && !retrieved.isEmpty then mainBranch query retrieved
  else
    match retrieved with
    | [] =>
      s2l "I couldn't find specific information about '" ++ query
        ++ s2l "' in your selected documents. "
        ++ s2l "Please make sure you've added documents to the knowledge base first."
    | best :: _ =>
      if best.content.isEmpty then
        s2l "I couldn't find specific information about '" ++ query ++ s2l "' in your selected documents."
      else
        s2l "I found some information in your documents, though it may not directly answer '" ++ query
          ++ s2l "':\n\n" ++ best.content.take 600
          ++ (if 600 < best.content.length then s2l "..." else [])

/-! ## The LLM-backed path and its fallback
`RAGPipeline.generate_response` / `_generate_with_openai`.  The OpenAI
client is external: it is modelled as a function from the built prompt to
either a completion text or a provider error. -/

/-- Provider failures of the external LLM call. -/
inductive ProviderErr where
  | timeout
  | auth
  | rateLimit
  | other
deriving DecidableEq, Repr

/-- The prompt `_generate_with_openai` builds: joined context block and one
of the two instruction templates. -/
def buildPrompt (query : List Char) (retrieved : List SearchCtx) (found : Bool) : List Char :=
  let context := List.intercalate (s2l "\n\n") (retrieved.map (fun c => c.content))
  if found && !context.isEmpty then
    s2l "You are a helpful assistant that answers questions based on the provided documents.\n\nContext from user's documents:\n"
      ++ context ++ s2l "\n\nQuestion: " ++ query
      ++ s2l "\n\nAnswer the question based on the context provided. If the context doesn't fully answer the question, say so but provide the best answer you can from the context."
  else
    s2l "The user asked: " ++ query
      ++ s2l "\n\nNote: The answer was not found in the user's documents. Please provide a helpful answer from your general knowledge."

/-- `RAGPipeline._generate_with_openai`: call the provider on the built
prompt; on success return the stripped completion, on any provider error
fall back to `_generate_simple_response` on the same query and contexts. -/
def generateWithOpenai (call : List Char → Except ProviderErr (List Char))
    (query : List Char) (retrieved : List SearchCtx) (found : Bool) : List Char :=
  match call (buildPrompt query retrieved found) with
  | Except.ok completion => pyStrip completion
  | Except.error _ => generateSimpleResponse query retrieved found

/-- `RAGPipeline.generate_response`: the LLM path when a client is
configured, else the deterministic path. -/
def generateResponse (hasClient : Bool) (call : List Char → Except ProviderErr (List Char))
    (query : List Char) (retrieved : List SearchCtx) (found : Bool) : List Char :=
  if hasClient then generateWithOpenai call query retrieved found
  else generateSimpleResponse query retrieved found

/-! ## The batch ingestion endpoint `/api/knowledge-base/add`

Per document, the endpoint fetches content (a collaborator call that may
raise), records an error and continues when the content is missing or
blank, and otherwise ingests; an exception from the ingest step is also
recorded and processing continues.  The collaborator outcomes are the
input of the model. -/

/-- Decidable equality of collaborator outcomes, used by witness
computations. -/
instance {ε α : Type} [DecidableEq ε] [DecidableEq α] : DecidableEq (Except ε α) := fun a b =>
  match a, b with
  | Except.error e1, Except.error e2 => decidable_of_iff (e1 = e2) (by simp)
  | Except.error _, Except.ok _ => isFalse (by simp)
  | Except.ok _, Except.error _ => isFalse (by simp)
  | Except.ok x, Except.ok y => decidable_of_iff (x = y) (by simp)

/-- One submitted document as the endpoint's loop sees it: its id, the
outcome of the content fetch, and the outcome of the
remove+add pipeline calls. -/
structure DocInput where
  docId : List Char
  fetched : Except (List Char) (List Char)
  addResult : Except (List Char) Unit
deriving DecidableEq, Repr

/-- The error message `f"Error processing document {doc_id}: {str(e)}"`. -/
def procErrMsg (docId msg : List Char) : List Char :=
  s2l "Error processing document " ++ docId ++ s2l ": " ++ msg

/-- The error message `f"Document {doc_id} is empty"`. -/
def emptyMsg (docId : List Char) : List Char :=
  s2l "Document " ++ docId ++ s2l " is empty"

/-- One iteration of the endpoint's loop over `request.document_ids`:
state is `(added_count, errors)`. -/
def processDoc (acc : Nat × List (List Char)) (d : DocInput) : Nat × List (List Char) :=
  match d.fetched with
  | Except.error e => (acc.1, acc.2 ++ [procErrMsg d.docId e])
  | Except.ok content =>
    if (pyStrip content).isEmpty then (acc.1, acc.2 ++ [emptyMsg d.docId])
    else
      match d.addResult with
      | Except.error e => (acc.1, acc.2 ++ [procErrMsg d.docId e])
      | Except.ok _ => (acc.1 + 1, acc.2)

/-- The endpoint's aggregate response: overall success flag, user message,
`added_count` and the accumulated error list. -/
structure BatchResult where
  success : Bool
  message : List Char
  addedCount : Nat
  errors : List (List Char)
deriving DecidableEq, Repr

/-- The whole loop plus the final response of `add_documents`. -/
def processBatch (docs : List DocInput) : BatchResult :=
  let r := docs.foldl processDoc (0, [])
  if 0 < r.1 then
    { success := true
      message := s2l "Successfully added " ++ Nat.toDigits 10 r.1 ++ s2l " document(s) to knowledge base"
        ++ (if r.2.isEmpty then [] else s2l ". Errors: " ++ Nat.toDigits 10 r.2.length)
      addedCount := r.1
      errors := r.2 }
  else
    { success := false
      message := s2l "Failed to add documents. Errors: " ++ List.intercalate (s2l "; ") r.2
      addedCount := 0
      errors := r.2 }

/-- Whether the endpoint's loop counts a document as added. -/
def docSucceeds (d : DocInput) : Bool :=
  match d.fetched with
  | Except.error _ => false
  | Except.ok content =>
    !(pyStrip content).isEmpty &&
      (match d.addResult with
       | Except.ok _ => true
       | Except.error _ => false)

/-! ## Overlap-stripping reconstruction (the spec's round-trip reading)

The spec's lossless-chunking property concatenates the chunk texts after
stripping from each chunk after the first "the overlapping prefix it
shares with its predecessor": formalised as the longest prefix of the
chunk that is a suffix of its predecessor. -/

/-- Longest `k ≤ bound` with `c2.take k` a suffix of `c1`. -/
def overlapLenAux (c1 c2 : List Char) : Nat → Nat
  | 0 => 0
  | k + 1 => if (c2.take (k + 1)).isSuffixOf c1 then k + 1 else overlapLenAux c1 c2 k

/-- The length of the longest prefix of `c2` that is a suffix of `c1`. -/
def overlapLen (c1 c2 : List Char) : Nat :=
  overlapLenAux c1 c2 (min c2.length c1.length)

/-- Concatenate the chunks after `prev`, each with its shared overlapping
prefix stripped. -/
def reconGo (prev : List Char) : List (List Char) → List Char
  | [] => []
  | c :: rest => c.drop (overlapLen prev c) ++ reconGo c rest

/-- The spec's reconstruction of a document from its chunk sequence. -/
def reconstructChunks : List (List Char) → List Char
  | [] => []
  | c :: rest => c ++ reconGo c rest

/-! ## Concrete inputs used by counterexamples and witnesses -/

/-- 198 `a`s, a sentence boundary, 1802 more `a`s (2002 characters): the
window `[0, 2000)` finds the `'. '` at position 198, cuts the window at
200, and the next cursor is `200 - overlap = 0` again — the chunking loop
never advances. -/
def stuckText : List Char :=
  List.replicate 198 'a' ++ '.' :: ' ' :: List.replicate 1802 'a'

/-- A leading space followed by 2000 `a`s: longer than `chunk_size`, and
the space survives in no chunk. -/
def spaceText : List Char :=
  ' ' :: List.replicate 2000 'a'

/-- A retrieved context for the document "Doc A". -/
def ctxA : SearchCtx :=
  { content := s2l "Blue sky.", metadata := some ⟨s2l "docA", s2l "Doc A", 0⟩, distance := 2 }

/-- The store produced by ingesting the five-character document "hello"
under id `d`. -/
def entHello : Store :=
  [⟨s2l "d_0", s2l "hello", ⟨s2l "d", s2l "n", 0⟩⟩]

/-! # Theorems

First a toolkit of evaluation lemmas for the scanner, stripping and
slicing over `replicate`-structured texts (texts long enough to exercise
the chunker exceed what kernel computation handles, so the concrete runs
are evaluated symbolically). -/

theorem flp_cons2 (a b : Char) (s e : Nat) (c1 c2 : Char) (rest : List Char) (i : Nat)
    (best : Option Nat) :
    findLastPair a b s e (c1 :: c2 :: rest) i best
      = findLastPair a b s e (c2 :: rest) (i + 1)
          (if c1 = a && c2 = b && s ≤ i && i + 2 ≤ e then some i else best) := rfl

theorem flp_nil (a b : Char) (s e i : Nat) (best : Option Nat) :
    findLastPair a b s e [] i best = best := rfl

theorem flp_one (a b : Char) (s e : Nat) (c : Char) (i : Nat) (best : Option Nat) :
    findLastPair a b s e [c] i best = best := rfl

/-- The scanner skips a block of identical characters that cannot start the
searched pair. -/
theorem flp_skip (a b c : Char) (hca : ¬ c = a) (s e : Nat) :
    ∀ (n : Nat) (x : Char) (xs : List Char) (i : Nat) (best : Option Nat),
      findLastPair a b s e (List.replicate n c ++ x :: xs) i best
        = findLastPair a b s e (x :: xs) (i + n) best := by
  intro n
  induction n with
  | zero => intro x xs i best; simp
  | succ m ih =>
    intro x xs i best
    rw [List.replicate_succ, List.cons_append]
    obtain ⟨y, ys, hy⟩ : ∃ y ys, List.replicate m c ++ x :: xs = y :: ys := by
      cases m with
      | zero => exact ⟨x, xs, by simp⟩
      | succ k => exact ⟨c, List.replicate k c ++ x :: xs, by rw [List.replicate_succ, List.cons_append]⟩
    rw [hy, flp_cons2]
    have hif : (if c = a && y = b && s ≤ i && i + 2 ≤ e then some i else best) = best := by
      simp [hca]
    rw [hif, ← hy, ih]
    have hidx : i + 1 + m = i + (m + 1) := by omega
    rw [hidx]

/-- The scanner returns its accumulator over a trailing block of identical
characters that cannot start the searched pair. -/
theorem flp_rep_nil (a b c : Char) (hca : ¬ c = a) (s e : Nat) :
    ∀ (n i : Nat) (best : Option Nat),
      findLastPair a b s e (List.replicate n c) i best = best := by
  intro n
  induction n with
  | zero => intro i best; rfl
  | succ m ih =>
    intro i best
    cases m with
    | zero => rfl
    | succ k =>
      rw [List.replicate_succ, List.replicate_succ, flp_cons2]
      have hif : (if c = a && c = b && s ≤ i && i + 2 ≤ e then some i else best) = best := by
        simp [hca]
      rw [hif, ← List.replicate_succ, ih]

theorem dropWhile_cons_false (p : Char → Bool) (c : Char) (l : List Char) (hc : p c = false) :
    List.dropWhile p (c :: l) = c :: l := by
  simp [List.dropWhile_cons, hc]

/-- `strip` leaves a block of one repeated non-whitespace character
untouched. -/
theorem pyStrip_replicate (c : Char) (hc : isPySpace c = false) (n : Nat) :
    pyStrip (List.replicate n c) = List.replicate n c := by
  cases n with
  | zero => rfl
  | succ m =>
    unfold pyStrip
    rw [List.replicate_succ, dropWhile_cons_false _ _ _ hc, ← List.replicate_succ,
        List.reverse_replicate, List.replicate_succ, dropWhile_cons_false _ _ _ hc,
        ← List.replicate_succ, List.reverse_replicate]

/-- `strip` drops a leading blank. -/
theorem pyStrip_cons_space (l : List Char) : pyStrip (' ' :: l) = pyStrip l := by
  unfold pyStrip
  rw [List.dropWhile_cons]
  simp [isPySpace]

theorem stuckText_length : stuckText.length = 2002 := by
  simp [stuckText]

theorem spaceText_length : spaceText.length = 2001 := by
  simp [spaceText]

/-- `pyIndex` on a non-negative in-range numeral. -/
theorem pyIndex_natCast (len m : Nat) : pyIndex len (m : Int) = min m len := by
  unfold pyIndex
  rw [if_neg (by exact Int.not_lt.mpr (Int.natCast_nonneg m)), Int.toNat_natCast]

/-- Unfolded form of `chunkEnd` (the `let`s inlined). -/
theorem chunkEnd_eq (csz : Nat) (text : List Char) (start : Int) :
    chunkEnd csz text start =
      if start + (csz : Int) < (text.length : Int) then
        (match pyRfind2 '.' ' ' text start (start + (csz : Int)) with
         | some p => (p : Int) + 2
         | none =>
           match pyRfind2 '.' '\n' text start (start + (csz : Int)) with
           | some p => (p : Int) + 2
           | none => start + (csz : Int))
      else start + (csz : Int) := rfl

/-- Unfolded form of `chunkNext`. -/
theorem chunkNext_eq (csz ov : Nat) (text : List Char) (start : Int) :
    chunkNext csz ov text start =
      if chunkEnd csz text start < (text.length : Int) then chunkEnd csz text start - (ov : Int)
      else chunkEnd csz text start := rfl

/-- The window `[0, 2000)` of `stuckText` finds its sentence boundary at
position 198. -/
theorem rfind_stuck_ds : pyRfind2 '.' ' ' stuckText 0 2000 = some 198 := by
  unfold pyRfind2
  rw [stuckText_length,
    show pyIndex 2002 (0 : Int) = 0 from by decide,
    show pyIndex 2002 (2000 : Int) = 2000 from by decide]
  unfold stuckText
  rw [flp_skip '.' ' ' 'a' (by decide) 0 2000 198 '.' (' ' :: List.replicate 1802 'a') 0 none,
    flp_cons2,
    show (if ('.' = '.' && ' ' = ' ' && 0 ≤ 0 + 198 && 0 + 198 + 2 ≤ 2000) then some (0 + 198)
      else (none : Option Nat)) = some 198 from by decide,
    show (1802 : Nat) = 1801 + 1 from rfl, List.replicate_succ, flp_cons2,
    show (if (' ' = '.' && 'a' = ' ' && 0 ≤ 0 + 198 + 1 && 0 + 198 + 1 + 2 ≤ 2000)
      then some (0 + 198 + 1) else some 198) = some 198 from by decide,
    ← List.replicate_succ, flp_rep_nil '.' ' ' 'a' (by decide) 0 2000]

theorem chunkEnd_stuck : chunkEnd 2000 stuckText 0 = 200 := by
  rw [chunkEnd_eq, show ((0 : Int) + ((2000 : Nat) : Int)) = (2000 : Int) from by norm_num,
    rfind_stuck_ds, stuckText_length]
  decide

theorem chunkNext_stuck : chunkNext 2000 200 stuckText 0 = 0 := by
  rw [chunkNext_eq, chunkEnd_stuck, stuckText_length]
  decide

theorem chunkLoop_zero_eq (csz ov : Nat) (text : List Char) (s : Int) :
    chunkLoop csz ov text 0 s = if s < (text.length : Int) then none else some [] := rfl

theorem chunkLoop_succ_eq (csz ov : Nat) (text : List Char) (f : Nat) (s : Int) :
    chunkLoop csz ov text (f + 1) s =
      if s < (text.length : Int) then
        (match chunkLoop csz ov text f (chunkNext csz ov text s) with
         | none => none
         | some rest =>
           some (if (chunkPiece csz text s).isEmpty then rest else chunkPiece csz text s :: rest))
      else some [] := rfl

/-- A cursor inside the text that the step function maps to itself makes
the loop run out of any amount of fuel. -/
theorem chunkLoop_fix (csz ov : Nat) (text : List Char) (s : Int)
    (hlt : s < (text.length : Int)) (hfix : chunkNext csz ov text s = s) :
    ∀ fuel, chunkLoop csz ov text fuel s = none := by
  intro fuel
  induction fuel with
  | zero => rw [chunkLoop_zero_eq, if_pos hlt]
  | succ f ih => rw [chunkLoop_succ_eq, if_pos hlt, hfix, ih]

/-- C10: REFUTED — the chunking loop does NOT terminate for every input at
the default parameters.  On `stuckText` (198 `a`s, `'. '`, 1802 `a`s) the
window `[0, 2000)` is cut at the sentence boundary to end 200, and the next
cursor is `200 - 200 = 0`: the cursor never advances, so the fuel-indexed
embedding of `_chunk_text` returns `none` for every amount of fuel — the
Python loop runs forever.  The spec's chunker contract (a total function
returning a chunk sequence) is the intent; this is a code bug. -/
theorem chunkText_diverges_stuckText : ∀ fuel, chunkTextD fuel stuckText = none := by
  intro fuel
  unfold chunkTextD chunkText
  rw [stuckText_length, if_neg (by norm_num)]
  exact chunkLoop_fix 2000 200 stuckText 0 (by rw [stuckText_length]; decide) chunkNext_stuck fuel

/-! Symbolic run of the chunker on `spaceText = ' ' :: 'a' * 2000`. -/

theorem rfind_space_ds : pyRfind2 '.' ' ' spaceText 0 2000 = none := by
  unfold pyRfind2
  rw [spaceText_length,
    show pyIndex 2001 (0 : Int) = 0 from by decide,
    show pyIndex 2001 (2000 : Int) = 2000 from by decide]
  unfold spaceText
  rw [show (2000 : Nat) = 1999 + 1 from rfl, List.replicate_succ, flp_cons2,
    show (if (' ' = '.' && 'a' = ' ' && 0 ≤ 0 && 0 + 2 ≤ 2000) then some 0
      else (none : Option Nat)) = none from by decide,
    ← List.replicate_succ, flp_rep_nil '.' ' ' 'a' (by decide) 0 2000]

theorem rfind_space_dn : pyRfind2 '.' '\n' spaceText 0 2000 = none := by
  unfold pyRfind2
  rw [spaceText_length,
    show pyIndex 2001 (0 : Int) = 0 from by decide,
    show pyIndex 2001 (2000 : Int) = 2000 from by decide]
  unfold spaceText
  rw [show (2000 : Nat) = 1999 + 1 from rfl, List.replicate_succ, flp_cons2,
    show (if (' ' = '.' && 'a' = '\n' && 0 ≤ 0 && 0 + 2 ≤ 2000) then some 0
      else (none : Option Nat)) = none from by decide,
    ← List.replicate_succ, flp_rep_nil '.' '\n' 'a' (by decide) 0 2000]

theorem chunkEnd_space0 : chunkEnd 2000 spaceText 0 = 2000 := by
  rw [chunkEnd_eq, show ((0 : Int) + ((2000 : Nat) : Int)) = (2000 : Int) from by norm_num,
    rfind_space_ds, rfind_space_dn, spaceText_length]
  decide

theorem chunkNext_space0 : chunkNext 2000 200 spaceText 0 = 1800 := by
  rw [chunkNext_eq, chunkEnd_space0, spaceText_length]
  decide

theorem chunkEnd_space1800 : chunkEnd 2000 spaceText 1800 = 3800 := by
  rw [chunkEnd_eq, spaceText_length]
  decide

theorem chunkNext_space1800 : chunkNext 2000 200 spaceText 1800 = 3800 := by
  rw [chunkNext_eq, chunkEnd_space1800, spaceText_length]
  decide

theorem chunkPiece_space0 : chunkPiece 2000 spaceText 0 = List.replicate 1999 'a' := by
  unfold chunkPiece pySliceI
  rw [chunkEnd_space0, spaceText_length,
    show pyIndex 2001 (2000 : Int) = 2000 from by decide,
    show pyIndex 2001 (0 : Int) = 0 from by decide,
    List.drop_zero]
  unfold spaceText
  rw [show (2000 : Nat) = 1999 + 1 from rfl, List.take_succ_cons, List.take_replicate,
    show (1999 ⊓ (1999 + 1) : Nat) = 1999 from by norm_num,
    pyStrip_cons_space, pyStrip_replicate 'a' (by decide)]

theorem chunkPiece_space1800 : chunkPiece 2000 spaceText 1800 = List.replicate 201 'a' := by
  unfold chunkPiece pySliceI
  rw [chunkEnd_space1800, spaceText_length,
    show pyIndex 2001 (3800 : Int) = 2001 from by decide,
    show pyIndex 2001 (1800 : Int) = 1800 from by decide]
  unfold spaceText
  rw [show (2001 : Nat) = 2000 + 1 from rfl, List.take_succ_cons, List.take_replicate,
    show (2000 ⊓ 2000 : Nat) = 2000 from by norm_num,
    show (1800 : Nat) = 1799 + 1 from rfl, List.drop_succ_cons, List.drop_replicate,
    show (2000 - 1799 : Nat) = 201 from by norm_num,
    pyStrip_replicate 'a' (by decide)]

theorem chunkLoop_space_3800 : chunkLoop 2000 200 spaceText 1 3800 = some [] := by
  rw [show (1 : Nat) = 0 + 1 from rfl, chunkLoop_succ_eq,
    if_neg (by rw [spaceText_length]; decide)]

theorem chunkLoop_space_1800 :
    chunkLoop 2000 200 spaceText 2 1800 = some [List.replicate 201 'a'] := by
  rw [show (2 : Nat) = 1 + 1 from rfl, chunkLoop_succ_eq,
    if_pos (show (1800 : Int) < (spaceText.length : Int) from by rw [spaceText_length]; decide),
    chunkNext_space1800, chunkLoop_space_3800, chunkPiece_space1800,
    show (List.replicate 201 'a').isEmpty = false from by
      rw [show (201 : Nat) = 200 + 1 from rfl, List.replicate_succ]; rfl]
  rfl

theorem chunkText_space :
    chunkText 3 spaceText 2000 200 = some [List.replicate 1999 'a', List.replicate 201 'a'] := by
  unfold chunkText
  rw [spaceText_length, if_neg (by norm_num),
    show (3 : Nat) = 2 + 1 from rfl, chunkLoop_succ_eq,
    if_pos (show (0 : Int) < (spaceText.length : Int) from by rw [spaceText_length]; decide),
    chunkNext_space0, chunkLoop_space_1800, chunkPiece_space0,
    show (List.replicate 1999 'a').isEmpty = false from by
      rw [show (1999 : Nat) = 1998 + 1 from rfl, List.replicate_succ]; rfl]
  rfl

/-! Symbolic run of the chunker on `'a' * 3000` (the boundary case of the
single-chunk threshold: `add_document` sends it to `_chunk_text`). -/

theorem rfind_rep3000_ds : pyRfind2 '.' ' ' (List.replicate 3000 'a') 0 2000 = none := by
  unfold pyRfind2
  rw [List.length_replicate,
    show pyIndex 3000 (0 : Int) = 0 from by decide,
    show pyIndex 3000 (2000 : Int) = 2000 from by decide,
    flp_rep_nil '.' ' ' 'a' (by decide) 0 2000]

theorem rfind_rep3000_dn : pyRfind2 '.' '\n' (List.replicate 3000 'a') 0 2000 = none := by
  unfold pyRfind2
  rw [List.length_replicate,
    show pyIndex 3000 (0 : Int) = 0 from by decide,
    show pyIndex 3000 (2000 : Int) = 2000 from by decide,
    flp_rep_nil '.' '\n' 'a' (by decide) 0 2000]

theorem chunkEnd_rep3000_0 : chunkEnd 2000 (List.replicate 3000 'a') 0 = 2000 := by
  rw [chunkEnd_eq, show ((0 : Int) + ((2000 : Nat) : Int)) = (2000 : Int) from by norm_num,
    rfind_rep3000_ds, rfind_rep3000_dn, List.length_replicate]
  decide

theorem chunkNext_rep3000_0 : chunkNext 2000 200 (List.replicate 3000 'a') 0 = 1800 := by
  rw [chunkNext_eq, chunkEnd_rep3000_0, List.length_replicate]
  decide

theorem chunkEnd_rep3000_1800 : chunkEnd 2000 (List.replicate 3000 'a') 1800 = 3800 := by
  rw [chunkEnd_eq, List.length_replicate]
  decide

theorem chunkNext_rep3000_1800 : chunkNext 2000 200 (List.replicate 3000 'a') 1800 = 3800 := by
  rw [chunkNext_eq, chunkEnd_rep3000_1800, List.length_replicate]
  decide

theorem chunkPiece_rep3000_0 : chunkPiece 2000 (List.replicate 3000 'a') 0 = List.replicate 2000 'a' := by
  unfold chunkPiece pySliceI
  rw [chunkEnd_rep3000_0, List.length_replicate,
    show pyIndex 3000 (2000 : Int) = 2000 from by decide,
    show pyIndex 3000 (0 : Int) = 0 from by decide,
    List.drop_zero, List.take_replicate,
    show (2000 ⊓ 3000 : Nat) = 2000 from by norm_num,
    pyStrip_replicate 'a' (by decide)]

theorem chunkPiece_rep3000_1800 :
    chunkPiece 2000 (List.replicate 3000 'a') 1800 = List.replicate 1200 'a' := by
  unfold chunkPiece pySliceI
  rw [chunkEnd_rep3000_1800, List.length_replicate,
    show pyIndex 3000 (3800 : Int) = 3000 from by decide,
    show pyIndex 3000 (1800 : Int) = 1800 from by decide,
    List.take_replicate, show (3000 ⊓ 3000 : Nat) = 3000 from by norm_num,
    List.drop_replicate, show (3000 - 1800 : Nat) = 1200 from by norm_num,
    pyStrip_replicate 'a' (by decide)]

theorem chunkLoop_rep3000_3800 : chunkLoop 2000 200 (List.replicate 3000 'a') 0 3800 = some [] := by
  rw [chunkLoop_zero_eq, if_neg (by rw [List.length_replicate]; decide)]

theorem chunkLoop_rep3000_1800 :
    chunkLoop 2000 200 (List.replicate 3000 'a') 1 1800 = some [List.replicate 1200 'a'] := by
  rw [show (1 : Nat) = 0 + 1 from rfl, chunkLoop_succ_eq,
    if_pos (show (1800 : Int) < ((List.replicate 3000 'a').length : Int) from by
      rw [List.length_replicate]; decide),
    chunkNext_rep3000_1800, chunkLoop_rep3000_3800, chunkPiece_rep3000_1800,
    show (List.replicate 1200 'a').isEmpty = false from by
      rw [show (1200 : Nat) = 1199 + 1 from rfl, List.replicate_succ]; rfl]
  rfl

theorem chunkTextD_rep3000 :
    chunkTextD 2 (List.replicate 3000 'a') = some [List.replicate 2000 'a', List.replicate 1200 'a'] := by
  unfold chunkTextD chunkText
  rw [List.length_replicate, if_neg (by norm_num),
    show (2 : Nat) = 1 + 1 from rfl, chunkLoop_succ_eq,
    if_pos (show (0 : Int) < ((List.replicate 3000 'a').length : Int) from by
      rw [List.length_replicate]; decide),
    chunkNext_rep3000_0, chunkLoop_rep3000_1800, chunkPiece_rep3000_0,
    show (List.replicate 2000 'a').isEmpty = false from by
      rw [show (2000 : Nat) = 1999 + 1 from rfl, List.replicate_succ]; rfl]
  rfl

/-- Every chunk emitted by the window loop is the whitespace-trim of a
slice of the input. -/
theorem chunkLoop_pieces (csz ov : Nat) (text : List Char) :
    ∀ (fuel : Nat) (start : Int) (cs : List (List Char)),
      chunkLoop csz ov text fuel start = some cs →
      ∀ c ∈ cs, ∃ s e : Int, c = pyStrip (pySliceI text s e) := by
  intro fuel
  induction fuel with
  | zero =>
    intro start cs h c hc
    rw [chunkLoop_zero_eq] at h
    by_cases hlt : start < (text.length : Int)
    · rw [if_pos hlt] at h; exact absurd h (by simp)
    · rw [if_neg hlt] at h
      injection h with h'
      subst h'
      cases hc
  | succ f ih =>
    intro start cs h c hc
    rw [chunkLoop_succ_eq] at h
    by_cases hlt : start < (text.length : Int)
    · rw [if_pos hlt] at h
      cases hrec : chunkLoop csz ov text f (chunkNext csz ov text start) with
      | none => rw [hrec] at h; exact absurd h (by simp)
      | some rest =>
        rw [hrec] at h
        injection h with h'
        subst h'
        by_cases hemp : (chunkPiece csz text start).isEmpty = true
        · rw [if_pos hemp] at hc
          exact ih _ rest hrec c hc
        · rw [if_neg hemp] at hc
          rcases List.mem_cons.mp hc with hceq | hcr
          · subst hceq; exact ⟨start, chunkEnd csz text start, rfl⟩
          · exact ih _ rest hrec c hcr
    · rw [if_neg hlt] at h
      injection h with h'
      subst h'
      cases hc

/-- C4 (amended): for texts longer than `chunk_size` the chunker does not
round-trip, but every chunk it produces is the whitespace-trim of a
contiguous slice `text[s:e]` of the input; exact lossless reconstruction
by overlap-stripping fails in general (see the counterexample). -/
theorem chunk_pieces_are_trimmed_slices (fuel csz ov : Nat) (text : List Char)
    (cs : List (List Char)) (c : List Char)
    (hlen : csz < text.length) (h : chunkText fuel text csz ov = some cs) (hc : c ∈ cs) :
    ∃ s e : Int, c = pyStrip (pySliceI text s e) := by
  unfold chunkText at h
  rw [if_neg (by omega)] at h
  exact chunkLoop_pieces csz ov text fuel 0 cs h c hc

/-- C4: REFUTED as stated — on `' ' :: 'a' * 2000` (longer than
`chunk_max_size = 2000`) the chunker yields `['a' * 1999, 'a' * 201]`; the
leading space is stripped from the first chunk and survives in no chunk,
and stripping from the second chunk the longest prefix it shares with its
predecessor removes 201 characters (all-`a` text overlaps maximally), so
the reconstruction is `'a' * 1999 ≠ input`. -/
theorem chunk_roundtrip_counterexample :
    2000 < spaceText.length ∧
    chunkText 3 spaceText 2000 200 = some [List.replicate 1999 'a', List.replicate 201 'a'] ∧
    reconstructChunks [List.replicate 1999 'a', List.replicate 201 'a'] ≠ spaceText := by
  refine ⟨by rw [spaceText_length]; norm_num, chunkText_space, ?_⟩
  intro h
  have h1 : (reconstructChunks [List.replicate 1999 'a', List.replicate 201 'a']).head?
      = some 'a' := by
    rw [show (1999 : Nat) = 1998 + 1 from rfl, List.replicate_succ]
    rfl
  have h2 : spaceText.head? = some ' ' := rfl
  rw [h, h2] at h1
  exact absurd (Option.some.inj h1) (by decide)

/-- Witness for the amended C4 at the concrete run on `spaceText`. -/
theorem chunk_pieces_witness :
    2000 < spaceText.length ∧
    chunkText 3 spaceText 2000 200 = some [List.replicate 1999 'a', List.replicate 201 'a'] ∧
    List.replicate 1999 'a' ∈ [List.replicate 1999 'a', List.replicate 201 'a'] ∧
    ∃ s e : Int, List.replicate 1999 'a' = pyStrip (pySliceI spaceText s e) :=
  ⟨by rw [spaceText_length]; norm_num, chunkText_space, List.mem_cons_self _ _,
    chunk_pieces_are_trimmed_slices 3 2000 200 spaceText _ _
      (by rw [spaceText_length]; norm_num) chunkText_space (List.mem_cons_self _ _)⟩

theorem pyStrip_rep_a_isEmpty (n : Nat) :
    (pyStrip (List.replicate (n + 1) 'a')).isEmpty = false := by
  rw [pyStrip_replicate 'a' (by decide), List.replicate_succ]
  rfl

theorem mkEntries_length (d n : List Char) (cs : List (List Char)) :
    (mkEntries d n cs).length = cs.length := by
  unfold mkEntries
  rw [List.length_map, List.enum_length]

/-- C2 (amended): for content strictly shorter than the 3000-character
threshold and not whitespace-only, `add_document` appends exactly one
chunk, and its stored text is the input text unmodified (not trimmed). -/
theorem addDocument_small_single_chunk (fuel : Nat) (store : Store) (dI dN content : List Char)
    (h1 : content.length < 3000) (h2 : (pyStrip content).isEmpty = false) :
    addDocument fuel store dI dN content
      = some (store ++ [⟨dI ++ '_' :: Nat.toDigits 10 0, content, ⟨dI, dN, 0⟩⟩]) := by
  have hfil : [content].filter (fun c => !(pyStrip c).isEmpty) = [content] := by
    apply List.filter_eq_self.mpr
    intro a ha
    rw [List.mem_singleton] at ha
    rw [ha]
    show (!(pyStrip content).isEmpty) = true
    rw [h2]
    rfl
  unfold addDocument chunksOf
  rw [if_pos h1, h2, if_neg Bool.false_ne_true]
  simp only [hfil, List.isEmpty_cons, Bool.false_eq_true, if_false]
  rfl

/-- Witness for the amended C2 on a two-character document. -/
theorem addDocument_small_witness :
    (s2l "hi").length < 3000 ∧ (pyStrip (s2l "hi")).isEmpty = false ∧
    addDocument 1 [] (s2l "d") (s2l "n") (s2l "hi")
      = some ([] ++ [⟨s2l "d" ++ '_' :: Nat.toDigits 10 0, s2l "hi", ⟨s2l "d", s2l "n", 0⟩⟩]) :=
  ⟨by decide, by decide, addDocument_small_single_chunk 1 [] _ _ _ (by decide) (by decide)⟩

/-- C2: REFUTED as stated — (a) the stored chunk text is the raw input,
not the trimmed input: ingesting `" a"` stores the text `" a"` while its
trim is `"a"`; (b) the fast path applies only for lengths strictly below
3000: a 3000-character document (at most the stated threshold) is chunked
into two chunks, not one. -/
theorem single_chunk_counterexample :
    (s2l " a").length ≤ 3000 ∧ (pyStrip (s2l " a")).isEmpty = false ∧
    addDocument 1 [] (s2l "d") (s2l "n") (s2l " a")
      = some [⟨s2l "d_0", s2l " a", ⟨s2l "d", s2l "n", 0⟩⟩] ∧
    s2l " a" ≠ pyStrip (s2l " a") ∧
    (List.replicate 3000 'a').length ≤ 3000 ∧
    (pyStrip (List.replicate 3000 'a')).isEmpty = false ∧
    (addDocument 2 [] (s2l "d") (s2l "n") (List.replicate 3000 'a')).map List.length = some 2 := by
  refine ⟨by decide, by decide, by decide, by decide, by rw [List.length_replicate], ?_, ?_⟩
  · rw [show (3000 : Nat) = 2999 + 1 from rfl, pyStrip_rep_a_isEmpty]
  · have hfil : [List.replicate 2000 'a', List.replicate 1200 'a'].filter
        (fun c => !(pyStrip c).isEmpty)
        = [List.replicate 2000 'a', List.replicate 1200 'a'] := by
      apply List.filter_eq_self.mpr
      intro a ha
      rcases List.mem_cons.mp ha with h | h
      · subst h
        show (!(pyStrip (List.replicate 2000 'a')).isEmpty) = true
        rw [show (2000 : Nat) = 1999 + 1 from rfl, pyStrip_rep_a_isEmpty]
        rfl
      · rw [List.mem_singleton] at h
        subst h
        show (!(pyStrip (List.replicate 1200 'a')).isEmpty) = true
        rw [show (1200 : Nat) = 1199 + 1 from rfl, pyStrip_rep_a_isEmpty]
        rfl
    unfold addDocument chunksOf
    rw [List.length_replicate, if_neg (by norm_num), chunkTextD_rep3000]
    simp only [hfil, List.isEmpty_cons, Bool.false_eq_true, if_false]
    rw [List.nil_append]
    show some (mkEntries (s2l "d") (s2l "n") [List.replicate 2000 'a', List.replicate 1200 'a']).length = some 2
    rw [mkEntries_length]
    rfl

/-- `remove_document` removes every entry whose metadata carries the
document id. -/
theorem mem_removeDocument_ne (store : Store) (docId : List Char) :
    ∀ e ∈ removeDocument store docId, e.meta.documentId ≠ docId := by
  intro e he hid
  simp only [removeDocument, List.mem_filter] at he
  obtain ⟨hstore, hbool⟩ := he
  have hmem : e.eid ∈ (store.filter (fun x => decide (x.meta.documentId = docId))).map
      (fun x => x.eid) :=
    List.mem_map.mpr ⟨e, List.mem_filter.mpr ⟨hstore, decide_eq_true hid⟩, rfl⟩
  simp only [Bool.not_eq_true', decide_eq_false_iff_not] at hbool
  exact hbool hmem

theorem entriesDoc_removeDocument (store : Store) (docId : List Char) :
    entriesDoc docId (removeDocument store docId) = [] := by
  unfold entriesDoc
  apply List.filter_eq_nil_iff.mpr
  intro e he
  simp only [decide_eq_true_eq]
  exact mem_removeDocument_ne store docId e he

theorem entriesDoc_append (docId : List Char) (s t : Store) :
    entriesDoc docId (s ++ t) = entriesDoc docId s ++ entriesDoc docId t := by
  unfold entriesDoc
  exact List.filter_append _ _

theorem mkEntries_docId (docId dN : List Char) (cs : List (List Char)) :
    ∀ e ∈ mkEntries docId dN cs, e.meta.documentId = docId := by
  intro e he
  unfold mkEntries at he
  rw [List.mem_map] at he
  obtain ⟨p, _, rfl⟩ := he
  rfl

theorem entriesDoc_mkEntries (docId dN : List Char) (cs : List (List Char)) :
    entriesDoc docId (mkEntries docId dN cs) = mkEntries docId dN cs := by
  unfold entriesDoc
  apply List.filter_eq_self.mpr
  intro e he
  exact decide_eq_true (mkEntries_docId docId dN cs e he)

/-- Evaluation rule for `addDocument` once the chunk list is known. -/
theorem addDocument_some_eq (fuel : Nat) (base : Store) (dI dN content : List Char)
    (cs : List (List Char)) (hc : chunksOf fuel content = some cs) :
    addDocument fuel base dI dN content =
      (if cs.isEmpty then some base
       else if (cs.filter (fun c => !(pyStrip c).isEmpty)).isEmpty then some base
       else some (base ++ mkEntries dI dN (cs.filter (fun c => !(pyStrip c).isEmpty)))) := by
  unfold addDocument
  rw [hc]

/-- After a successful `add_document` on a base holding no chunk of the
document, the document's entries are exactly the freshly built ones
(empty when the content produced no valid chunk). -/
theorem addDocument_entriesDoc (fuel : Nat) (base : Store) (dI dN content : List Char) (t : Store)
    (hbase : entriesDoc dI base = []) (h : addDocument fuel base dI dN content = some t) :
    ∃ cs, chunksOf fuel content = some cs ∧
      entriesDoc dI t =
        (if cs.isEmpty then []
         else if (cs.filter (fun c => !(pyStrip c).isEmpty)).isEmpty then []
         else mkEntries dI dN (cs.filter (fun c => !(pyStrip c).isEmpty))) := by
  cases hc : chunksOf fuel content with
  | none =>
    rw [addDocument] at h
    rw [hc] at h
    exact absurd h (by simp)
  | some cs =>
    rw [addDocument_some_eq fuel base dI dN content cs hc] at h
    refine ⟨cs, rfl, ?_⟩
    by_cases h1 : cs.isEmpty = true
    · rw [if_pos h1] at h ⊢
      injection h with h'
      subst h'
      exact hbase
    · rw [if_neg h1] at h ⊢
      by_cases h2 : (cs.filter (fun c => !(pyStrip c).isEmpty)).isEmpty = true
      · rw [if_pos h2] at h ⊢
        injection h with h'
        subst h'
        exact hbase
      · rw [if_neg h2] at h ⊢
        injection h with h'
        subst h'
        rw [entriesDoc_append, hbase, entriesDoc_mkEntries, List.nil_append]

theorem ingest_entriesDoc (fuel : Nat) (store : Store) (dI dN content : List Char) (t : Store)
    (h : ingestDocument fuel store dI dN content = some t) :
    ∃ cs, chunksOf fuel content = some cs ∧
      entriesDoc dI t =
        (if cs.isEmpty then []
         else if (cs.filter (fun c => !(pyStrip c).isEmpty)).isEmpty then []
         else mkEntries dI dN (cs.filter (fun c => !(pyStrip c).isEmpty))) := by
  unfold ingestDocument at h
  exact addDocument_entriesDoc fuel _ dI dN content t (entriesDoc_removeDocument store dI) h

/-- C1: re-ingesting a document id is an idempotent replace: the endpoint's
per-document path (`remove_document` then `add_document`) first removes
every prior chunk of the id, and ingesting the same content twice leaves
for that id exactly the entries (hence exactly the chunk count) of a
single ingest — the store never holds chunks of two versions of the
document. -/
theorem ingest_idempotent_replace (fuel : Nat) (store : Store) (dI dN content : List Char)
    (t1 t2 : Store)
    (h1 : ingestDocument fuel store dI dN content = some t1)
    (h2 : ingestDocument fuel t1 dI dN content = some t2) :
    countDoc dI t2 = countDoc dI t1 ∧ entriesDoc dI t2 = entriesDoc dI t1 ∧
      ∀ e ∈ removeDocument store dI, e.meta.documentId ≠ dI := by
  obtain ⟨cs1, hcs1, he1⟩ := ingest_entriesDoc fuel store dI dN content t1 h1
  obtain ⟨cs2, hcs2, he2⟩ := ingest_entriesDoc fuel t1 dI dN content t2 h2
  rw [hcs1] at hcs2
  have hcs : cs1 = cs2 := Option.some.inj hcs2
  subst hcs
  have heq : entriesDoc dI t2 = entriesDoc dI t1 := by rw [he2, he1]
  exact ⟨by unfold countDoc; rw [heq], heq, mem_removeDocument_ne store dI⟩

/-- Witness for C1: ingesting the document `"hello"` twice under id `d`
leaves exactly the single entry store of one ingest. -/
theorem ingest_idempotent_witness :
    ingestDocument 1 [] (s2l "d") (s2l "n") (s2l "hello") = some entHello ∧
    ingestDocument 1 entHello (s2l "d") (s2l "n") (s2l "hello") = some entHello ∧
    (countDoc (s2l "d") entHello = countDoc (s2l "d") entHello ∧
      entriesDoc (s2l "d") entHello = entriesDoc (s2l "d") entHello ∧
      ∀ e ∈ removeDocument [] (s2l "d"), e.meta.documentId ≠ s2l "d") :=
  ⟨by decide, by decide,
    ingest_idempotent_replace 1 [] (s2l "d") (s2l "n") (s2l "hello") entHello entHello
      (by decide) (by decide)⟩

/-- C3: on the chat path a result is classified relevant exactly when its
distance is strictly below 1.0 (the contexts are the filtered results);
and when at least one result was retrieved but none is below 1.0,
`found_in_documents` is forced true and the top 3 results (the first three
of the ascending-distance list) are passed as contexts instead of none. -/
theorem chat_threshold_classification (docs : List SearchCtx) (scores : List ℚ) :
    ((∃ p ∈ docs.zip scores, p.2 < 1) →
      (chatSelect docs scores).1 = true ∧
      (chatSelect docs scores).2
        = ((docs.zip scores).filter (fun p => decide (p.2 < 1))).map Prod.fst) ∧
    (docs ≠ [] → (∀ p ∈ docs.zip scores, ¬ p.2 < 1) →
      chatSelect docs scores = (true, docs.take 3)) := by
  constructor
  · rintro ⟨p, hp, hlt⟩
    have hfound : (docs.zip scores).any (fun p => decide (p.2 < 1)) = true :=
      List.any_eq_true.mpr ⟨p, hp, decide_eq_true hlt⟩
    simp only [chatSelect]
    rw [hfound]
    simp only [Bool.not_true, Bool.and_false, Bool.false_eq_true, if_false]
    exact ⟨trivial, trivial⟩
  · intro hne hall
    have hfound : (docs.zip scores).any (fun p => decide (p.2 < 1)) = false :=
      List.any_eq_false.mpr (fun p hp h => hall p hp (of_decide_eq_true h))
    have hne' : docs.isEmpty = false := by
      cases docs with
      | nil => exact absurd rfl hne
      | cons a l => rfl
    simp only [chatSelect]
    rw [hfound, hne']
    rfl

/-- Witness for C3 at one retrieved result of distance 2. -/
theorem chat_threshold_witness :
    ([ctxA] : List SearchCtx) ≠ [] ∧ (∀ p ∈ [ctxA].zip [(2 : ℚ)], ¬ p.2 < 1) ∧
    chatSelect [ctxA] [(2 : ℚ)] = (true, [ctxA]) :=
  ⟨by decide, by decide,
    (chat_threshold_classification [ctxA] [(2 : ℚ)]).2 (by decide) (by decide)⟩

/-- C7: `search` on an empty store returns `([], [])` without error and
without consulting the embedding backend: the result is `ok` for every
embedding outcome, including a failing one. -/
theorem search_empty_store (store : Store) (embedQ : Except EmbErr (List ℚ))
    (qres : List ℚ → Nat → List SearchCtx) (topK : Nat) (h : store.length = 0) :
    search store embedQ qres topK = Except.ok ([], []) := by
  unfold search
  rw [if_pos h]

/-- Witness for C7: the empty store with an erroring embedding backend. -/
theorem search_empty_store_witness :
    ([] : Store).length = 0 ∧
    search [] (Except.error EmbErr.unavailable) (fun _ _ => []) 5 = Except.ok ([], []) :=
  ⟨rfl, search_empty_store [] (Except.error EmbErr.unavailable) (fun _ _ => []) 5 rfl⟩

/-- C5: if the provider call on the built prompt raises any provider
error, `_generate_with_openai` returns exactly the deterministic
fallback's output on the same query and contexts; its return type carries
no error, so nothing propagates to the caller. -/
theorem provider_error_falls_back (call : List Char → Except ProviderErr (List Char))
    (query : List Char) (retrieved : List SearchCtx) (found : Bool) (e : ProviderErr)
    (h : call (buildPrompt query retrieved found) = Except.error e) :
    generateWithOpenai call query retrieved found
      = generateSimpleResponse query retrieved found := by
  unfold generateWithOpenai
  rw [h]

/-- Witness for C5 with a provider that times out. -/
theorem provider_error_falls_back_witness :
    (fun _ : List Char => (Except.error ProviderErr.timeout : Except ProviderErr (List Char)))
        (buildPrompt (s2l "q") [] false) = Except.error ProviderErr.timeout ∧
    generateWithOpenai (fun _ => Except.error ProviderErr.timeout) (s2l "q") [] false
      = generateSimpleResponse (s2l "q") [] false :=
  ⟨rfl, provider_error_falls_back (fun _ => Except.error ProviderErr.timeout)
    (s2l "q") [] false ProviderErr.timeout rfl⟩

/-- C9 (amended): with an empty retrieved-context list the deterministic
synthesizer returns one fixed templated message — the same whether or not
any documents are indexed (`found_in_documents` true or false); the
template itself asks the user to add documents first. -/
theorem no_context_message (query : List Char) (found : Bool) :
    generateSimpleResponse query [] found
      = s2l "I couldn't find specific information about '" ++ query
          ++ s2l "' in your selected documents. "
          ++ s2l "Please make sure you've added documents to the knowledge base first." := by
  cases found <;> rfl

/-- C9: REFUTED as stated — the message does NOT differ between the
"no documents indexed" and the "documents exist but nothing relevant"
cases: the synthesizer's empty-context output is identical for both
values of `found_in_documents`, the only input that could distinguish
them. -/
theorem no_context_message_counterexample :
    generateSimpleResponse (s2l "q") [] false = generateSimpleResponse (s2l "q") [] true := rfl

/-- C8 (amended): the hedged lead-in followed by the best context capped
at 600 characters is produced when the synthesizer is called with
`found_in_documents = false` and a non-empty context whose best content is
non-empty — not on the chat threshold-fallback path, which forces
`found_in_documents = true`. -/
theorem hedged_weak_context (query : List Char) (c : SearchCtx) (rest : List SearchCtx)
    (h : c.content.isEmpty = false) :
    generateSimpleResponse query (c :: rest) false
      = s2l "I found some information in your documents, though it may not directly answer '"
          ++ query ++ s2l "':\n\n" ++ c.content.take 600
          ++ (if 600 < c.content.length then s2l "..." else []) := by
  simp only [generateSimpleResponse, Bool.false_and, Bool.false_eq_true, if_false, h]

/-- Witness for the amended C8. -/
theorem hedged_weak_context_witness :
    ctxA.content.isEmpty = false ∧
    generateSimpleResponse (s2l "hi") [ctxA] false
      = s2l "I found some information in your documents, though it may not directly answer '"
          ++ s2l "hi" ++ s2l "':\n\n" ++ ctxA.content.take 600
          ++ (if 600 < ctxA.content.length then s2l "..." else []) :=
  ⟨by decide, hedged_weak_context (s2l "hi") ctxA [] (by decide)⟩

/-- C8: REFUTED as stated — on the chat threshold-fallback input (one
retrieved result, distance 2 ≥ 1.0) the chat layer sets
`found_in_documents = true`, so the deterministic synthesizer produces the
normal "Based on … here's what I found" response, not the hedged
lead-in. -/
theorem hedged_weak_context_counterexample :
    (chatSelect [ctxA] [(2 : ℚ)]).1 = true ∧
    generateSimpleResponse (s2l "hi") (chatSelect [ctxA] [(2 : ℚ)]).2
        (chatSelect [ctxA] [(2 : ℚ)]).1
      = s2l "Based on Doc A, here's what I found:\n\nBlue sky." ∧
    generateSimpleResponse (s2l "hi") (chatSelect [ctxA] [(2 : ℚ)]).2
        (chatSelect [ctxA] [(2 : ℚ)]).1
      ≠ s2l "I found some information in your documents, though it may not directly answer 'hi':\n\nBlue sky." :=
  ⟨by decide, by decide, by decide⟩

theorem processDoc_fst (acc : Nat × List (List Char)) (d : DocInput) :
    (processDoc acc d).1 = acc.1 + (if docSucceeds d then 1 else 0) := by
  obtain ⟨dId, df, da⟩ := d
  cases df with
  | error e => simp [processDoc, docSucceeds]
  | ok content =>
    by_cases hs : (pyStrip content).isEmpty = true
    · simp [processDoc, docSucceeds, hs]
    · have hs' : (pyStrip content).isEmpty = false := eq_false_of_ne_true hs
      cases da with
      | error e => simp [processDoc, docSucceeds, hs']
      | ok u => simp [processDoc, docSucceeds, hs']

theorem processDoc_errlen (acc : Nat × List (List Char)) (d : DocInput) :
    (processDoc acc d).2.length = acc.2.length + (if docSucceeds d then 0 else 1) := by
  obtain ⟨dId, df, da⟩ := d
  cases df with
  | error e => simp [processDoc, docSucceeds]
  | ok content =>
    by_cases hs : (pyStrip content).isEmpty = true
    · simp [processDoc, docSucceeds, hs]
    · have hs' : (pyStrip content).isEmpty = false := eq_false_of_ne_true hs
      cases da with
      | error e => simp [processDoc, docSucceeds, hs']
      | ok u => simp [processDoc, docSucceeds, hs']

/-- Invariant of the endpoint's loop: the counter adds one per succeeding
document, the error list grows by one message per failing document, and no
failure stops the traversal. -/
theorem processBatch_loop (docs : List DocInput) :
    ∀ acc : Nat × List (List Char),
      (docs.foldl processDoc acc).1 = acc.1 + docs.countP docSucceeds ∧
      (docs.foldl processDoc acc).2.length
        = acc.2.length + docs.countP (fun d => !docSucceeds d) := by
  induction docs with
  | nil => intro acc; simp
  | cons d rest ih =>
    intro acc
    rw [List.foldl_cons]
    obtain ⟨ha, hb⟩ := ih (processDoc acc d)
    constructor
    · rw [ha, processDoc_fst, List.countP_cons]
      by_cases hd : docSucceeds d = true <;> simp [hd] <;> omega
    · rw [hb, processDoc_errlen, List.countP_cons]
      by_cases hd : docSucceeds d = true <;> simp [hd] <;> omega

theorem processBatch_proj (docs : List DocInput) :
    ((processBatch docs).success = false ↔ (processBatch docs).addedCount = 0) ∧
    (processBatch docs).addedCount = (docs.foldl processDoc (0, [])).1 ∧
    (processBatch docs).errors = (docs.foldl processDoc (0, [])).2 := by
  unfold processBatch
  by_cases hr : 0 < (docs.foldl processDoc (0, ([] : List (List Char)))).1
  · rw [if_pos hr]
    refine ⟨?_, rfl, rfl⟩
    constructor
    · intro h; exact absurd h (by simp)
    · intro h; exact absurd h (Nat.pos_iff_ne_zero.mp hr)
  · rw [if_neg hr]
    have h0 : (docs.foldl processDoc (0, ([] : List (List Char)))).1 = 0 :=
      Nat.eq_zero_of_not_pos hr
    exact ⟨by simp, h0.symm, rfl⟩

/-- C6: per-document failures (the empty-document condition included) are
recorded in the error list and do not abort the rest of the batch: the
final `added_count` is the number of succeeding documents, the error list
holds one message per failing document (they sum to the batch size), and
overall success is false exactly when `added_count = 0`.  Concretely, a
batch of 3 documents of which 1 is empty yields `added_count = 2`, one
error, and overall success. -/
theorem batch_error_aggregation :
    (∀ docs : List DocInput,
      ((processBatch docs).success = false ↔ (processBatch docs).addedCount = 0) ∧
      (processBatch docs).addedCount = docs.countP docSucceeds ∧
      (processBatch docs).errors.length = docs.countP (fun d => !docSucceeds d) ∧
      (processBatch docs).addedCount + (processBatch docs).errors.length = docs.length) ∧
    ((processBatch [⟨s2l "doc1", Except.ok (s2l "hello"), Except.ok ()⟩,
        ⟨s2l "doc2", Except.ok (s2l "  "), Except.ok ()⟩,
        ⟨s2l "doc3", Except.ok (s2l "world"), Except.ok ()⟩]).addedCount = 2 ∧
      (processBatch [⟨s2l "doc1", Except.ok (s2l "hello"), Except.ok ()⟩,
        ⟨s2l "doc2", Except.ok (s2l "  "), Except.ok ()⟩,
        ⟨s2l "doc3", Except.ok (s2l "world"), Except.ok ()⟩]).errors.length = 1 ∧
      (processBatch [⟨s2l "doc1", Except.ok (s2l "hello"), Except.ok ()⟩,
        ⟨s2l "doc2", Except.ok (s2l "  "), Except.ok ()⟩,
        ⟨s2l "doc3", Except.ok (s2l "world"), Except.ok ()⟩]).success = true) := by
  constructor
  · intro docs
    obtain ⟨hiff, hadd, herr⟩ := processBatch_proj docs
    obtain ⟨hl1, hl2⟩ := processBatch_loop docs (0, [])
    refine ⟨hiff, ?_, ?_, ?_⟩
    · rw [hadd, hl1, Nat.zero_add]
    · rw [herr, hl2]
      simp
    · rw [hadd, hl1, herr, hl2]
      simp only [Nat.zero_add, List.length_nil]
      have hfun : (fun d : DocInput => !docSucceeds d)
          = (fun a : DocInput => decide ¬(docSucceeds a = true)) := by
        funext a
        cases h : docSucceeds a <;> simp [h]
      rw [hfun]
      exact (List.length_eq_countP_add_countP docSucceeds docs).symm
  · exact ⟨by decide, by decide, by decide⟩
